import Mathlib

/-!
Verification development for the Feed Retention & Sync Engine of
`src/project/src/hooks/usePosts.ts` (the `usePosts` hook).

The hook's logic is embedded shallowly:
* timestamps and calendar dates are modelled as integers (the source compares
  `new Date(...).getTime()` values; ISO day strings become epoch-day integers);
* ids are natural numbers; reaction kinds are strings, as in the source;
* the backend (`supabase`) is modelled by passing its responses and write
  outcomes as explicit parameters, and the React `useState` cell for `posts`
  as explicit state.
-/

namespace Familis

/-- A reaction row as selected by `fetchPosts` (usePosts.ts lines 84-95). -/
structure Reaction where
  id : Nat
  user_id : Nat
  reaction_type : String
  deriving Repr, DecidableEq

/-- A raw post row as returned by the backend query (usePosts.ts lines 77-98),
with its reaction rows. `timestamp` is the creation instant in integer form. -/
structure RawPost where
  id : Nat
  timestamp : Int
  is_favorite : Bool
  reactions : List Reaction
  deriving Repr, DecidableEq

/-- The processed post produced by the map at usePosts.ts lines 103-117:
the raw post plus the derived engagement aggregates. -/
structure ProcessedPost where
  id : Nat
  timestamp : Int
  is_favorite : Bool
  reactions : List Reaction
  likes_count : Nat
  comments_count : Nat
  user_has_liked : Bool
  elderly_reactions : List Reaction
  deriving Repr, DecidableEq

/-- The Aggregate Builder: the body of `data?.map((post) => ...)` at
usePosts.ts lines 103-117, for the acting user `userId`. -/
def processPost (userId : Nat) (post : RawPost) : ProcessedPost :=
  let reactions := post.reactions
  let likes := reactions.filter (fun r => r.reaction_type == "LIKE")
  let comments := reactions.filter (fun r => r.reaction_type == "COMMENT")
  { id := post.id
    timestamp := post.timestamp
    is_favorite := post.is_favorite
    reactions := reactions
    likes_count := likes.length
    comments_count := comments.length
    user_has_liked := likes.any (fun r => r.user_id == userId)
    elderly_reactions := reactions.filter (fun r => r.reaction_type == "SLIDESHOW") }

/-- `processedPosts` of usePosts.ts line 103: the whole fetched list mapped
through the Aggregate Builder. -/
def processedPostsOf (userId : Nat) (data : List RawPost) : List ProcessedPost :=
  data.map (processPost userId)

/-- The ascending-timestamp comparison used by
`.sort((a, b) => new Date(a.timestamp).getTime() - new Date(b.timestamp).getTime())`
at usePosts.ts line 124 (a stable ascending sort by timestamp). -/
def tsLE (a b : ProcessedPost) : Bool :=
  decide (a.timestamp ≤ b.timestamp)

/-- The Retention Enforcer: usePosts.ts lines 119-152. Given the photo limit
and the processed posts (newest first, as fetched), returns
`(postsToDelete, publishedPosts)`: the posts deleted from the database by the
loop at lines 134-139, and the list passed to `setPosts`. -/
def enforceRetention (photoLimit : Nat) (processedPosts : List ProcessedPost) :
    List ProcessedPost × List ProcessedPost :=
  if processedPosts.length > photoLimit then
    let nonFavoritePosts :=
      (processedPosts.filter (fun post => !post.is_favorite)).mergeSort tsLE
    let postsToRemove := processedPosts.length - photoLimit
    if nonFavoritePosts.length ≥ postsToRemove then
      let postsToDelete := nonFavoritePosts.take postsToRemove
      let remainingPosts := processedPosts.filter
        (fun post => !(postsToDelete.any (fun p => p.id == post.id)))
      (postsToDelete, remainingPosts)
    else
      ([], processedPosts)
  else
    ([], processedPosts)

/-- `const photoLimit = familyData.slideshow_photo_limit || 30;`
(usePosts.ts line 74): `null`/`undefined` is modelled as `none` and the JS
`||` treats a stored `0` as falsy, so both fall back to `30`. -/
def photoLimitOf (slideshow_photo_limit : Option Nat) : Nat :=
  match slideshow_photo_limit with
  | none => 30
  | some n => if n = 0 then 30 else n

/-- The pure core of a successful `fetchPosts` run (usePosts.ts lines 60-152):
settings lookup fallback, aggregate building, retention enforcement.
Returns `(postsToDelete, publishedPosts)`. -/
def fetchPostsPure (userId : Nat) (slideshow_photo_limit : Option Nat)
    (data : List RawPost) : List ProcessedPost × List ProcessedPost :=
  enforceRetention (photoLimitOf slideshow_photo_limit) (processedPostsOf userId data)

/-- The hook's state cells (usePosts.ts lines 15-17): `posts`, `loading`,
`error`. -/
structure HookState where
  posts : List ProcessedPost
  loading : Bool
  error : Option String
  deriving Repr, DecidableEq

/-- Initial hook state (usePosts.ts lines 15-17): empty posts, loading,
no error. -/
def initialHookState : HookState :=
  { posts := [], loading := true, error := none }

/-- Outcome of one `fetchPosts` run: either every backend call succeeded
(with the acting user, the stored limit and the fetched rows), or some step
threw with a message. -/
inductive FetchOutcome where
  | success (userId : Nat) (slideshow_photo_limit : Option Nat) (data : List RawPost)
  | failure (msg : String)
  deriving Repr, DecidableEq

/-- Effect of one complete `fetchPosts` run on the hook state
(usePosts.ts lines 60-159): on success the retained posts are published and
`loading` cleared (the `finally` block); the `error` cell is left untouched.
On failure `setError` records the message, `posts` is untouched, and
`loading` is cleared. -/
def fetchPostsStep (outcome : FetchOutcome) (s : HookState) : HookState :=
  match outcome with
  | .success userId limit data =>
      { s with posts := (fetchPostsPure userId limit data).2, loading := false }
  | .failure msg =>
      { s with error := some msg, loading := false }

/-- The local-state update of `toggleFavorite` (usePosts.ts lines 256-262):
map over `prevPosts`, flipping `is_favorite` on the matching id. -/
def toggleFavoriteLocal (postId : Nat) (prevPosts : List ProcessedPost) :
    List ProcessedPost :=
  prevPosts.map (fun p =>
    if p.id == postId then { p with is_favorite := !p.is_favorite } else p)

/-- Observable events of a `toggleFavorite` run, in program order:
the awaited backend `update` write (line 249-252) and the `setPosts`
local-state update (line 256-262). -/
inductive ToggleEvent where
  | backendWrite (postId : Nat) (newFav : Bool)
  | setLocal (newPosts : List ProcessedPost)
  deriving Repr, DecidableEq

/-- Whether a toggle event is the `setPosts` local-state update. -/
def ToggleEvent.isSetLocal : ToggleEvent → Bool
  | .setLocal _ => true
  | _ => false

/-- `toggleFavorite(postId)` (usePosts.ts lines 244-267), run against local
state `posts`, where `backendOk` is whether the backend `update` succeeds.
Returns the ordered event trace and either the new local posts state or the
thrown error message. The `Post not found` throw and the backend-error throw
are both caught at line 263 and rethrown as the same message. -/
def toggleFavoriteRun (backendOk : Bool) (postId : Nat)
    (posts : List ProcessedPost) :
    List ToggleEvent × Except String (List ProcessedPost) :=
  match posts.find? (fun p => p.id == postId) with
  | none => ([], .error "Failed to update favorite status")
  | some post =>
      if backendOk then
        let newPosts := toggleFavoriteLocal postId posts
        ([.backendWrite postId (!post.is_favorite), .setLocal newPosts], .ok newPosts)
      else
        ([.backendWrite postId (!post.is_favorite)],
         .error "Failed to update favorite status")

/-- The Streak Calculator: usePosts.ts lines 174-196. Dates are epoch-day
integers (the source builds day-precision dates from ISO day strings, so the
millisecond division at lines 183-185 is exact and timezone-free). -/
def computeNewStreak (lastPostDate : Option Int) (streak_count : Nat)
    (today : Int) : Nat :=
  match lastPostDate with
  | none => 1
  | some d =>
      let daysSinceLastPost := today - d
      if daysSinceLastPost = 1 then streak_count + 1
      else if daysSinceLastPost = 0 then streak_count
      else 1

/-- The acting user's stored profile row as selected at usePosts.ts
lines 166-170. -/
structure UserProfile where
  name : String
  avatar_url : Option String
  streak_count : Nat
  last_post_date : Option Int
  deriving Repr, DecidableEq

/-- The caller-supplied draft (`NewPost`) used at usePosts.ts lines 203-205. -/
structure NewPostDraft where
  media_url : String
  media_type : String
  caption : String
  deriving Repr, DecidableEq

/-- The post row inserted at usePosts.ts lines 198-212 (with the id the
backend assigns to it). -/
structure InsertedPost where
  id : Nat
  username : String
  media_url : String
  media_type : String
  caption : String
  avatar_url : String
  user_id : Nat
  streak_count : Nat
  deriving Repr, DecidableEq

/-- One `post_families` association row (usePosts.ts lines 216-219). -/
structure PostFamilyLink where
  post_id : Nat
  family_id : Nat
  deriving Repr, DecidableEq

/-- The `users` update written at usePosts.ts lines 227-233. -/
structure UserStreakUpdate where
  streak_count : Nat
  last_post_date : Int
  deriving Repr, DecidableEq

/-- Result of a `createPost` run: the created post returned to the caller
together with the association rows and the user-state write it performed, or
the single error message thrown at usePosts.ts line 240. -/
inductive CreatePostResult where
  | ok (post : InsertedPost) (links : List PostFamilyLink) (update : UserStreakUpdate)
  | failed (msg : String)
  deriving Repr, DecidableEq

/-- The default avatar fallback at usePosts.ts line 206. -/
def defaultAvatarUrl : String :=
  "https://images.unsplash.com/photo-1535713875002-d1d0cf377fde?auto=format&fit=crop&w=100"

/-- `createPost(post, familyIds)` (usePosts.ts lines 161-242). `auth` is the
authenticated user id (none when `supabase.auth.getUser()` yields no user),
`profileRes` the profile lookup result, `today` the current calendar day,
`newPostId` the id the backend assigns to the inserted row, and the three
booleans the outcomes of the post insert, the association insert and the
user-state update. Every failure is caught and rethrown as
`Failed to create post` (line 240). -/
def createPostRun (auth : Option Nat) (profileRes : Option UserProfile)
    (today : Int) (newPostId : Nat)
    (postInsertOk linksInsertOk userUpdateOk : Bool)
    (draft : NewPostDraft) (familyIds : List Nat) : CreatePostResult :=
  match auth with
  | none => .failed "Failed to create post"
  | some uid =>
      match profileRes with
      | none => .failed "Failed to create post"
      | some profile =>
          let newStreakCount :=
            computeNewStreak profile.last_post_date profile.streak_count today
          if postInsertOk then
            let newPost : InsertedPost :=
              { id := newPostId
                username := profile.name
                media_url := draft.media_url
                media_type := draft.media_type
                caption := draft.caption
                avatar_url := profile.avatar_url.getD defaultAvatarUrl
                user_id := uid
                streak_count := newStreakCount }
            let postFamilies := familyIds.map (fun familyId =>
              { post_id := newPost.id, family_id := familyId : PostFamilyLink })
            if linksInsertOk then
              if userUpdateOk then
                .ok newPost postFamilies
                  { streak_count := newStreakCount, last_post_date := today }
              else .failed "Failed to create post"
            else .failed "Failed to create post"
          else .failed "Failed to create post"

/-- The two realtime subscriptions registered by `setupRealtimeSubscription`
(usePosts.ts lines 27-58): changes on `posts` rows of the family, and changes
on any `reactions` row. -/
inductive RealtimeEvent where
  | postsChange
  | reactionsChange
  deriving Repr, DecidableEq

/-- The handler body attached to each subscription (usePosts.ts lines 39-41
and 49-51): every delivered event unconditionally calls
`fetchPosts(familyId)` once. The result lists the `fetchPosts` invocations
(by family id) the handler makes; there is no in-flight guard or pending
flag anywhere in the hook. -/
def onRealtimeEvent (familyId : Nat) (_e : RealtimeEvent) : List Nat :=
  [familyId]

/-- The `fetchPosts` invocations triggered by a sequence of delivered
realtime events. -/
def fetchCallsFor (familyId : Nat) (events : List RealtimeEvent) : List Nat :=
  (events.map (onRealtimeEvent familyId)).flatten

/-- Descending-timestamp (newest first) ordering of a posts list. -/
def sortedDesc (ps : List ProcessedPost) : Prop :=
  ps.Pairwise (fun a b => b.timestamp ≤ a.timestamp)

/-- A reaction-free processed post, for concrete examples. -/
def mkPost (id : Nat) (timestamp : Int) (fav : Bool) : ProcessedPost :=
  { id := id, timestamp := timestamp, is_favorite := fav, reactions := []
    likes_count := 0, comments_count := 0, user_has_liked := false
    elderly_reactions := [] }

/-- The reaction list of the spec's Aggregate Builder example: LIKE by
user 1, LIKE by user 2, COMMENT by user 1. -/
def exampleReactions : List Reaction :=
  [ { id := 1, user_id := 1, reaction_type := "LIKE" },
    { id := 2, user_id := 2, reaction_type := "LIKE" },
    { id := 3, user_id := 1, reaction_type := "COMMENT" } ]

/-- A raw post carrying `exampleReactions`, for concrete examples. -/
def exampleRawPost : RawPost :=
  { id := 10, timestamp := 0, is_favorite := false, reactions := exampleReactions }

/-! Helper lemmas. -/

theorem tsLE_trans : ∀ a b c : ProcessedPost,
    tsLE a b = true → tsLE b c = true → tsLE a c = true := by
  intro a b c
  simp only [tsLE, decide_eq_true_eq]
  omega

theorem tsLE_total : ∀ a b : ProcessedPost, (tsLE a b || tsLE b a) = true := by
  intro a b
  simp only [tsLE, Bool.or_eq_true, decide_eq_true_eq]
  omega

theorem mergeSort_nonFav_length (ps : List ProcessedPost) :
    ((ps.filter (fun p => !p.is_favorite)).mergeSort tsLE).length
      = (ps.filter (fun p => !p.is_favorite)).length :=
  (List.mergeSort_perm _ tsLE).length_eq

theorem length_filter_fav_split (ps : List ProcessedPost) :
    (ps.filter (fun p => p.is_favorite)).length
      + (ps.filter (fun p => !p.is_favorite)).length = ps.length := by
  induction ps with
  | nil => rfl
  | cons p t ih =>
      cases hf : p.is_favorite <;> simp [List.filter_cons, hf] <;> omega

theorem enforceRetention_of_le (photoLimit : Nat) (ps : List ProcessedPost)
    (h : ps.length ≤ photoLimit) :
    enforceRetention photoLimit ps = ([], ps) := by
  unfold enforceRetention
  rw [if_neg (by omega)]

theorem enforceRetention_of_scarce (photoLimit : Nat) (ps : List ProcessedPost)
    (h1 : photoLimit < ps.length)
    (h2 : (ps.filter (fun p => !p.is_favorite)).length < ps.length - photoLimit) :
    enforceRetention photoLimit ps = ([], ps) := by
  have hl := mergeSort_nonFav_length ps
  simp only [enforceRetention]
  rw [if_pos h1, if_neg (by omega)]

theorem enforceRetention_of_enough (photoLimit : Nat) (ps : List ProcessedPost)
    (h1 : photoLimit < ps.length)
    (h2 : ps.length - photoLimit ≤ (ps.filter (fun p => !p.is_favorite)).length) :
    enforceRetention photoLimit ps =
      (((ps.filter (fun p => !p.is_favorite)).mergeSort tsLE).take
          (ps.length - photoLimit),
        ps.filter (fun post =>
          !((((ps.filter (fun p => !p.is_favorite)).mergeSort tsLE).take
              (ps.length - photoLimit)).any (fun p => p.id == post.id)))) := by
  have hl := mergeSort_nonFav_length ps
  simp only [enforceRetention]
  rw [if_pos h1, if_pos (by omega)]

theorem enforceRetention_snd_sublist (photoLimit : Nat) (ps : List ProcessedPost) :
    (enforceRetention photoLimit ps).2.Sublist ps := by
  simp only [enforceRetention]
  split
  · split
    · exact List.filter_sublist ps
    · exact List.Sublist.refl ps
  · exact List.Sublist.refl ps

theorem toggleFavoriteLocal_timestamp (postId : Nat) (p : ProcessedPost) :
    (if p.id == postId then { p with is_favorite := !p.is_favorite } else p).timestamp
      = p.timestamp := by
  split <;> rfl

/-! Claim theorems. -/

/-- C3: the Streak Calculator during post creation yields 1 when
`last_post_date` is null; the unchanged streak when the calendar-day
difference to today is 0; the incremented streak when it is 1; and resets
to 1 when it is greater than 1 or negative (backdated / clock skew). -/
theorem streak_calculator_cases (current_streak : Nat) (today : Int)
    (lastPostDate : Option Int) :
    (lastPostDate = none →
      computeNewStreak lastPostDate current_streak today = 1) ∧
    (∀ d, lastPostDate = some d → today - d = 0 →
      computeNewStreak lastPostDate current_streak today = current_streak) ∧
    (∀ d, lastPostDate = some d → today - d = 1 →
      computeNewStreak lastPostDate current_streak today = current_streak + 1) ∧
    (∀ d, lastPostDate = some d → (1 < today - d ∨ today - d < 0) →
      computeNewStreak lastPostDate current_streak today = 1) := by
  refine ⟨?_, ?_, ?_, ?_⟩
  · rintro rfl
    rfl
  · rintro d rfl h0
    simp only [computeNewStreak]
    rw [if_neg (by omega), if_pos h0]
  · rintro d rfl h1
    simp only [computeNewStreak]
    rw [if_pos h1]
  · rintro d rfl hgap
    simp only [computeNewStreak]
    rw [if_neg (by omega), if_neg (by omega)]

/-- Witness for C3 at concrete dates: null → 1, same day → 5, previous
day → 6, three-day gap → 1, backdated → 1. -/
theorem streak_calculator_cases_witness :
    computeNewStreak none 5 100 = 1 ∧
    computeNewStreak (some 100) 5 100 = 5 ∧
    computeNewStreak (some 99) 5 100 = 6 ∧
    computeNewStreak (some 97) 5 100 = 1 ∧
    computeNewStreak (some 101) 5 100 = 1 := by
  refine ⟨(streak_calculator_cases 5 100 none).1 rfl,
    (streak_calculator_cases 5 100 (some 100)).2.1 100 rfl (by decide),
    (streak_calculator_cases 5 100 (some 99)).2.2.1 99 rfl (by decide),
    (streak_calculator_cases 5 100 (some 97)).2.2.2 97 rfl (Or.inl (by decide)),
    (streak_calculator_cases 5 100 (some 101)).2.2.2 101 rfl (Or.inr (by decide))⟩

/-- C4: the Aggregate Builder counts every LIKE reaction row as
`likes_count` and every COMMENT row as `comments_count` (duplicates from the
same user included), sets `user_has_liked` exactly when some LIKE reaction
is authored by the acting user, and a post with no reactions gets all-zero
aggregates; the transformation is a pure function of its input. -/
theorem aggregate_builder_correct (userId : Nat) (post : RawPost) :
    (processPost userId post).likes_count
        = post.reactions.countP (fun r => decide (r.reaction_type = "LIKE")) ∧
    (processPost userId post).comments_count
        = post.reactions.countP (fun r => decide (r.reaction_type = "COMMENT")) ∧
    ((processPost userId post).user_has_liked = true ↔
      ∃ r ∈ post.reactions, r.reaction_type = "LIKE" ∧ r.user_id = userId) ∧
    (post.reactions = [] →
      (processPost userId post).likes_count = 0 ∧
      (processPost userId post).comments_count = 0 ∧
      (processPost userId post).user_has_liked = false) := by
  have hfk : ∀ (l : List Reaction) (s : String),
      l.filter (fun r => r.reaction_type == s)
        = l.filter (fun r => decide (r.reaction_type = s)) := by
    intro l s
    exact List.filter_congr (fun x _ => by
      rw [Bool.eq_iff_iff, beq_iff_eq, decide_eq_true_eq])
  refine ⟨?_, ?_, ?_, ?_⟩
  · simp only [processPost, List.countP_eq_length_filter, hfk]
  · simp only [processPost, List.countP_eq_length_filter, hfk]
  · simp only [processPost, List.any_eq_true, List.mem_filter]
    constructor
    · rintro ⟨r, ⟨hr, htype⟩, huser⟩
      exact ⟨r, hr, by simpa using htype, by simpa using huser⟩
    · rintro ⟨r, hr, htype, huser⟩
      exact ⟨r, ⟨hr, by simpa using htype⟩, by simpa using huser⟩
  · intro h
    simp [processPost, h]

/-- Witness for C4: the spec example, reactions LIKE by user 1, LIKE by
user 2, COMMENT by user 1, viewed as user 1 and as user 3. -/
theorem aggregate_builder_correct_witness :
    (processPost 1 exampleRawPost).likes_count = 2 ∧
    (processPost 1 exampleRawPost).comments_count = 1 ∧
    (processPost 1 exampleRawPost).user_has_liked = true ∧
    (processPost 3 exampleRawPost).user_has_liked = false := by
  refine ⟨(aggregate_builder_correct 1 exampleRawPost).1.trans (by decide),
    (aggregate_builder_correct 1 exampleRawPost).2.1.trans (by decide),
    (aggregate_builder_correct 1 exampleRawPost).2.2.1.mpr
      ⟨{ id := 1, user_id := 1, reaction_type := "LIKE" }, by decide, rfl, rfl⟩, ?_⟩
  have h := (aggregate_builder_correct 3 exampleRawPost).2.2.1
  cases hb : (processPost 3 exampleRawPost).user_has_liked
  · rfl
  · exfalso
    rcases h.mp hb with ⟨r, hr, htype, huser⟩
    simp only [exampleRawPost, exampleReactions, List.mem_cons,
      List.not_mem_nil, or_false] at hr
    rcases hr with rfl | rfl | rfl <;> simp_all

/-- C10: a stored `slideshow_photo_limit` of null/undefined or 0 is falsy
for the `|| 30` fallback, so hydration enforces retention with the default
limit 30; in particular a stored 0 behaves exactly like a stored 30 and
never evicts down to zero posts. -/
theorem default_photo_limit (userId : Nat) (data : List RawPost) :
    photoLimitOf none = 30 ∧
    photoLimitOf (some 0) = 30 ∧
    fetchPostsPure userId none data
      = enforceRetention 30 (processedPostsOf userId data) ∧
    fetchPostsPure userId (some 0) data
      = enforceRetention 30 (processedPostsOf userId data) ∧
    fetchPostsPure userId (some 0) data = fetchPostsPure userId (some 30) data :=
  ⟨rfl, rfl, rfl, rfl, rfl⟩

/-- C6 counterexample: a failed hydration records an error message; a
subsequent successful `fetchPosts` run publishes the new feed but never
clears the `error` cell (`setError(null)` is absent from the success path),
so the state still reports the old error. -/
theorem errored_recovery_counterexample :
    (fetchPostsStep (.success 1 none [])
      (fetchPostsStep (.failure "Failed to load posts") initialHookState)).error
      = some "Failed to load posts" ∧
    (fetchPostsStep (.success 1 none [])
      (fetchPostsStep (.failure "Failed to load posts") initialHookState)).error
      ≠ none := by
  exact ⟨rfl, by decide⟩

/-- C6 amended: after a hydration failure, a subsequent successful
`fetchPosts` run publishes the newly retained feed and clears `loading`,
but the error indicator keeps the prior failure message — it is not
cleared. -/
theorem errored_recovery_amended (s : HookState) (msg : String) (userId : Nat)
    (limit : Option Nat) (data : List RawPost) :
    (fetchPostsStep (.success userId limit data)
        (fetchPostsStep (.failure msg) s)).posts
      = (fetchPostsPure userId limit data).2 ∧
    (fetchPostsStep (.success userId limit data)
        (fetchPostsStep (.failure msg) s)).loading = false ∧
    (fetchPostsStep (.success userId limit data)
        (fetchPostsStep (.failure msg) s)).error = some msg :=
  ⟨rfl, rfl, rfl⟩

/-- C9 counterexample: two change notifications delivered to the
subscription handler trigger two `fetchPosts` invocations, not one — the
handler has no in-flight guard and no coalescing. -/
theorem notification_coalescing_counterexample :
    (fetchCallsFor 7 [.postsChange, .reactionsChange]).length = 2 ∧
    (fetchCallsFor 7 [.postsChange, .reactionsChange]).length ≠ 1 := by
  exact ⟨rfl, by decide⟩

/-- C9 amended: every delivered change notification unconditionally triggers
exactly one `fetchPosts` invocation for the subscribed family, so n
notifications trigger n hydration runs; there is no coalescing and no
in-flight limit. -/
theorem notification_fanout (familyId : Nat) (events : List RealtimeEvent) :
    fetchCallsFor familyId events = events.map (fun _ => familyId) ∧
    (fetchCallsFor familyId events).length = events.length := by
  have h : fetchCallsFor familyId events = events.map (fun _ => familyId) := by
    induction events with
    | nil => rfl
    | cons e es ih =>
        simp only [fetchCallsFor, List.map_cons, List.flatten_cons,
          onRealtimeEvent] at ih ⊢
        rw [ih]
        rfl
  exact ⟨h, by rw [h, List.length_map]⟩

/-- C2: favorites are inviolable — when the feed exceeds the positive limit
but fewer non-favorited posts exist than the excess (equivalently, the
favorited posts alone exceed the limit), the Retention Enforcer deletes
nothing and publishes every post, leaving capacity exceeded. -/
theorem favorites_inviolable (photoLimit : Nat) (ps : List ProcessedPost)
    (hpos : 0 < photoLimit)
    (hover : photoLimit < ps.length)
    (hfew : (ps.filter (fun p => !p.is_favorite)).length < ps.length - photoLimit) :
    enforceRetention photoLimit ps = ([], ps) ∧
    photoLimit < (ps.filter (fun p => p.is_favorite)).length := by
  refine ⟨enforceRetention_of_scarce photoLimit ps hover hfew, ?_⟩
  have := length_filter_fav_split ps
  omega

/-- Witness for C2: limit 1 with three favorited posts — nothing is removed
and all three remain. -/
theorem favorites_inviolable_witness :
    enforceRetention 1 [mkPost 3 3 true, mkPost 2 2 true, mkPost 1 1 true]
      = ([], [mkPost 3 3 true, mkPost 2 2 true, mkPost 1 1 true]) ∧
    1 < ([mkPost 3 3 true, mkPost 2 2 true, mkPost 1 1 true].filter
          (fun p => p.is_favorite)).length :=
  favorites_inviolable 1 [mkPost 3 3 true, mkPost 2 2 true, mkPost 1 1 true]
    (by decide) (by decide) (by decide)

/-- C7 counterexample: with post 1 present in local state and the backend
write failing, the run issues the backend write and produces no local-state
update at all — the `is_favorite` flip is never applied to local state
before backend confirmation (so there is no optimistic update and nothing
is ever reverted); on a successful run the local update strictly follows
the backend write. -/
theorem toggle_optimistic_counterexample :
    (toggleFavoriteRun false 1 [mkPost 1 0 false]).1
      = [ToggleEvent.backendWrite 1 true] ∧
    ((toggleFavoriteRun false 1 [mkPost 1 0 false]).1.filter
        ToggleEvent.isSetLocal) = [] ∧
    (toggleFavoriteRun false 1 [mkPost 1 0 false]).2
      = Except.error "Failed to update favorite status" ∧
    (toggleFavoriteRun true 1 [mkPost 1 0 false]).1
      = [ToggleEvent.backendWrite 1 true,
         ToggleEvent.setLocal [mkPost 1 0 true]] :=
  ⟨rfl, rfl, rfl, rfl⟩

/-- C7 amended: an absent post makes the operation throw without any event
(local state untouched); for a present post the backend write is issued
first, and the flip is applied to local state only after the write
succeeds; if the write fails the operation throws having performed no
local update, so local state equals its pre-toggle value and a failed
toggle never corrupts the feed. -/
theorem toggleFavorite_contract (backendOk : Bool) (postId : Nat)
    (posts : List ProcessedPost) :
    (posts.find? (fun p => p.id == postId) = none →
      toggleFavoriteRun backendOk postId posts
        = ([], Except.error "Failed to update favorite status")) ∧
    (∀ post, posts.find? (fun p => p.id == postId) = some post →
      (backendOk = true →
        toggleFavoriteRun backendOk postId posts
          = ([ToggleEvent.backendWrite postId (!post.is_favorite),
              ToggleEvent.setLocal (toggleFavoriteLocal postId posts)],
             Except.ok (toggleFavoriteLocal postId posts))) ∧
      (backendOk = false →
        toggleFavoriteRun backendOk postId posts
          = ([ToggleEvent.backendWrite postId (!post.is_favorite)],
             Except.error "Failed to update favorite status"))) := by
  constructor
  · intro h
    simp [toggleFavoriteRun, h]
  · intro post h
    constructor
    · rintro rfl
      simp [toggleFavoriteRun, h]
    · rintro rfl
      simp [toggleFavoriteRun, h]

/-- Witness for C7 amended: a successful toggle of post 1, and a toggle of
the absent post 2. -/
theorem toggleFavorite_contract_witness :
    toggleFavoriteRun true 1 [mkPost 1 0 false]
      = ([ToggleEvent.backendWrite 1 (!(mkPost 1 0 false).is_favorite),
          ToggleEvent.setLocal (toggleFavoriteLocal 1 [mkPost 1 0 false])],
         Except.ok (toggleFavoriteLocal 1 [mkPost 1 0 false])) ∧
    toggleFavoriteRun false 2 [mkPost 1 0 false]
      = ([], Except.error "Failed to update favorite status") := by
  refine ⟨((toggleFavorite_contract true 1 [mkPost 1 0 false]).2
      (mkPost 1 0 false) (by decide)).1 rfl,
    (toggleFavorite_contract false 2 [mkPost 1 0 false]).1 (by decide)⟩

/-- C8: on a fully successful `createPost`, the inserted post's
`streak_count` is the Streak Calculator result on the user's stored
`(last_post_date, streak_count)` and today, the user-state write that
follows carries that same streak with today as `last_post_date`, and the
created post is returned; if the post insert, the association insert or
the user-state update fails, the whole operation reports failure. -/
theorem createPost_streak_snapshot (uid : Nat) (profile : UserProfile)
    (today : Int) (newPostId : Nat) (draft : NewPostDraft)
    (familyIds : List Nat) :
    (∃ post links update,
      createPostRun (some uid) (some profile) today newPostId true true true
          draft familyIds = CreatePostResult.ok post links update ∧
      post.streak_count
        = computeNewStreak profile.last_post_date profile.streak_count today ∧
      update.streak_count = post.streak_count ∧
      update.last_post_date = today) ∧
    (∀ postInsertOk linksInsertOk userUpdateOk : Bool,
      postInsertOk = false ∨ linksInsertOk = false ∨ userUpdateOk = false →
      createPostRun (some uid) (some profile) today newPostId
          postInsertOk linksInsertOk userUpdateOk draft familyIds
        = CreatePostResult.failed "Failed to create post") := by
  constructor
  · exact ⟨_, _, _, rfl, rfl, rfl, rfl⟩
  · intro postInsertOk linksInsertOk userUpdateOk h
    rcases h with rfl | rfl | rfl
    · simp [createPostRun]
    · cases postInsertOk <;> simp [createPostRun]
    · cases postInsertOk <;> cases linksInsertOk <;> simp [createPostRun]

/-- Witness for C8: a concrete profile with streak 4 last posting on the
previous day — the created post snapshots streak 5 and the user state is
updated to streak 5 with today, while a failed association insert fails
the whole call. -/
theorem createPost_streak_snapshot_witness :
    (∃ post links update,
      createPostRun (some 1)
          (some { name := "a", avatar_url := none, streak_count := 4,
                  last_post_date := some 9 })
          10 5 true true true
          { media_url := "m", media_type := "image", caption := "c" } [2]
        = CreatePostResult.ok post links update ∧
      post.streak_count
        = computeNewStreak (some 9) 4 10 ∧
      update.streak_count = post.streak_count ∧
      update.last_post_date = 10) ∧
    createPostRun (some 1)
        (some { name := "a", avatar_url := none, streak_count := 4,
                last_post_date := some 9 })
        10 5 true false true
        { media_url := "m", media_type := "image", caption := "c" } [2]
      = CreatePostResult.failed "Failed to create post" := by
  refine ⟨(createPost_streak_snapshot 1
      { name := "a", avatar_url := none, streak_count := 4,
        last_post_date := some 9 } 10 5
      { media_url := "m", media_type := "image", caption := "c" } [2]).1,
    (createPost_streak_snapshot 1
      { name := "a", avatar_url := none, streak_count := 4,
        last_post_date := some 9 } 10 5
      { media_url := "m", media_type := "image", caption := "c" } [2]).2
      true false true (Or.inr (Or.inl rfl))⟩

/-- C5: with the backend returning the posts in descending timestamp order
(newest first), the hydrated processed list is descending, the
retention-enforced published list stays descending (eviction filters the
sequence without reordering), and the `toggleFavorite` local update maps
over the sequence in place without reordering. -/
theorem feed_ordering_invariant (userId photoLimit postId : Nat)
    (data : List RawPost)
    (hsorted : data.Pairwise (fun a b => b.timestamp ≤ a.timestamp)) :
    sortedDesc (processedPostsOf userId data) ∧
    sortedDesc (enforceRetention photoLimit (processedPostsOf userId data)).2 ∧
    sortedDesc (toggleFavoriteLocal postId
      (enforceRetention photoLimit (processedPostsOf userId data)).2) := by
  have h1 : sortedDesc (processedPostsOf userId data) := by
    unfold sortedDesc processedPostsOf
    rw [List.pairwise_map]
    exact hsorted
  have h2 : sortedDesc (enforceRetention photoLimit (processedPostsOf userId data)).2 :=
    List.Pairwise.sublist (enforceRetention_snd_sublist photoLimit _) h1
  refine ⟨h1, h2, ?_⟩
  unfold sortedDesc toggleFavoriteLocal
  rw [List.pairwise_map]
  exact h2.imp (fun hab => by
    rw [toggleFavoriteLocal_timestamp, toggleFavoriteLocal_timestamp]
    exact hab)

/-- Witness for C5: two non-favorited posts at timestamps 5 and 3, limit 1,
toggling post 2. -/
theorem feed_ordering_invariant_witness :
    sortedDesc (processedPostsOf 0
      [{ id := 2, timestamp := 5, is_favorite := false, reactions := [] },
       { id := 1, timestamp := 3, is_favorite := false, reactions := [] }]) ∧
    sortedDesc (enforceRetention 1 (processedPostsOf 0
      [{ id := 2, timestamp := 5, is_favorite := false, reactions := [] },
       { id := 1, timestamp := 3, is_favorite := false, reactions := [] }])).2 ∧
    sortedDesc (toggleFavoriteLocal 2 (enforceRetention 1 (processedPostsOf 0
      [{ id := 2, timestamp := 5, is_favorite := false, reactions := [] },
       { id := 1, timestamp := 3, is_favorite := false, reactions := [] }])).2) :=
  feed_ordering_invariant 0 1 2
    [{ id := 2, timestamp := 5, is_favorite := false, reactions := [] },
     { id := 1, timestamp := 3, is_favorite := false, reactions := [] }]
    (by decide)

/-- C1: Retention Enforcer core postcondition. With a positive limit and
distinct post ids: a feed within the limit has no removals and is published
whole; the published feed preserves newest-first order; and when the excess
is positive and at least `excess` non-favorited posts exist, exactly
`excess` posts are selected for removal, all non-favorited and drawn from
the feed, listed in ascending timestamp order, each no newer than any
surviving non-favorited post; the published feed is the input sequence
minus exactly the selected posts, with length exactly the limit. -/
theorem retention_enforcer_core (photoLimit : Nat) (ps : List ProcessedPost)
    (hpos : 0 < photoLimit)
    (hids : (ps.map (fun p => p.id)).Nodup) :
    (ps.length ≤ photoLimit → enforceRetention photoLimit ps = ([], ps)) ∧
    (sortedDesc ps → sortedDesc (enforceRetention photoLimit ps).2) ∧
    (photoLimit < ps.length →
      ps.length - photoLimit ≤ (ps.filter (fun p => !p.is_favorite)).length →
      (enforceRetention photoLimit ps).1.length = ps.length - photoLimit ∧
      (∀ p ∈ (enforceRetention photoLimit ps).1,
        p ∈ ps ∧ p.is_favorite = false) ∧
      (enforceRetention photoLimit ps).1.Pairwise
        (fun a b => a.timestamp ≤ b.timestamp) ∧
      (∀ p ∈ (enforceRetention photoLimit ps).1, ∀ q ∈ ps,
        q.is_favorite = false → q ∉ (enforceRetention photoLimit ps).1 →
        p.timestamp ≤ q.timestamp) ∧
      (enforceRetention photoLimit ps).2
        = ps.filter (fun p => decide (p ∉ (enforceRetention photoLimit ps).1)) ∧
      (enforceRetention photoLimit ps).2.length = photoLimit) := by
  refine ⟨fun hle => enforceRetention_of_le photoLimit ps hle,
    fun hs => List.Pairwise.sublist (enforceRetention_snd_sublist photoLimit ps) hs,
    ?_⟩
  intro hover hexcess
  have hre := enforceRetention_of_enough photoLimit ps hover hexcess
  have hperm := List.mergeSort_perm (ps.filter (fun p => !p.is_favorite)) tsLE
  have hslen := hperm.length_eq
  have hsortTS : ((ps.filter (fun p => !p.is_favorite)).mergeSort tsLE).Pairwise
      (fun a b => a.timestamp ≤ b.timestamp) :=
    (List.sorted_mergeSort tsLE_trans tsLE_total
      (ps.filter (fun p => !p.is_favorite))).imp
      (fun h => by simpa [tsLE] using h)
  rw [hre]
  dsimp only
  set S := (ps.filter (fun p => !p.is_favorite)).mergeSort tsLE with hS
  set E := ps.length - photoLimit with hE
  have hDmem : ∀ p ∈ S.take E, p ∈ ps ∧ p.is_favorite = false := by
    intro p hp
    have hp1 : p ∈ S := List.take_subset E S hp
    have hp2 := List.mem_filter.mp (hperm.mem_iff.mp hp1)
    exact ⟨hp2.1, by simpa using hp2.2⟩
  have hinj := List.inj_on_of_nodup_map hids
  have hpub : ps.filter (fun post => !((S.take E).any (fun p => p.id == post.id)))
      = ps.filter (fun p => decide (p ∉ S.take E)) := by
    apply List.filter_congr
    intro x hx
    by_cases hmem : x ∈ S.take E
    · have hany : (S.take E).any (fun p => p.id == x.id) = true :=
        List.any_eq_true.mpr ⟨x, hmem, by simp⟩
      rw [hany, decide_eq_false (not_not_intro hmem)]
      rfl
    · have hany : (S.take E).any (fun p => p.id == x.id) = false := by
        apply Bool.eq_false_iff.mpr
        intro hA
        rcases List.any_eq_true.mp hA with ⟨r, hrD, hrid⟩
        have hrps : r ∈ ps := (hDmem r hrD).1
        have hrx : r = x := hinj hrps hx (by simpa using hrid)
        exact hmem (hrx ▸ hrD)
      rw [hany, decide_eq_true hmem]
      rfl
  refine ⟨?_, hDmem, ?_, ?_, hpub, ?_⟩
  · rw [List.length_take]
    omega
  · exact List.Pairwise.sublist (List.take_sublist E S) hsortTS
  · intro p hp q hq hqfav hqnot
    have hq1 : q ∈ ps.filter (fun p => !p.is_favorite) :=
      List.mem_filter.mpr ⟨hq, by simp [hqfav]⟩
    have hq2 : q ∈ S := hperm.mem_iff.mpr hq1
    have hsplit : S = S.take E ++ S.drop E := (List.take_append_drop E S).symm
    have hq3 : q ∈ S.take E ++ S.drop E := hsplit ▸ hq2
    rcases List.mem_append.mp hq3 with h | h
    · exact absurd h hqnot
    · have hPW2 : (S.take E ++ S.drop E).Pairwise
          (fun a b => a.timestamp ≤ b.timestamp) := hsplit ▸ hsortTS
      exact (List.pairwise_append.mp hPW2).2.2 p hp q h
  · rw [hpub]
    have hNDps : ps.Nodup := List.Nodup.of_map _ hids
    have hNDS : S.Nodup := hperm.nodup_iff.mpr (hNDps.filter _)
    have hNDD : (S.take E).Nodup := (List.take_sublist E S).nodup hNDS
    have hpermIn : (ps.filter (fun p => decide (p ∈ S.take E))).Perm (S.take E) := by
      rw [List.perm_ext_iff_of_nodup (hNDps.filter _) hNDD]
      intro a
      simp only [List.mem_filter, decide_eq_true_eq]
      constructor
      · rintro ⟨-, h⟩
        exact h
      · intro h
        exact ⟨(hDmem a h).1, h⟩
    have hsplitLen := List.length_eq_length_filter_add
      (l := ps) (fun p => decide (p ∈ S.take E))
    have hnot : ps.filter (fun p => decide (p ∉ S.take E))
        = ps.filter (fun p => !(decide (p ∈ S.take E))) :=
      List.filter_congr (fun x _ => decide_not)
    have hInLen : (ps.filter (fun p => decide (p ∈ S.take E))).length
        = (S.take E).length := hpermIn.length_eq
    have hTakeLen : (S.take E).length = E := by
      rw [List.length_take]
      omega
    rw [hnot]
    omega

/-- Witness for C1: the spec scenario — limit 2, four non-favorited posts
at timestamps 1 < 2 < 3 < 4, newest first: exactly two are selected for
removal and exactly two are retained. -/
theorem retention_enforcer_core_witness :
    (enforceRetention 2 [mkPost 4 4 false, mkPost 3 3 false, mkPost 2 2 false,
        mkPost 1 1 false]).1.length = 2 ∧
    (enforceRetention 2 [mkPost 4 4 false, mkPost 3 3 false, mkPost 2 2 false,
        mkPost 1 1 false]).2.length = 2 := by
  have h := (retention_enforcer_core 2
      [mkPost 4 4 false, mkPost 3 3 false, mkPost 2 2 false, mkPost 1 1 false]
      (by decide) (by decide)).2.2 (by decide) (by decide)
  exact ⟨h.1.trans (by decide), h.2.2.2.2.2⟩

end Familis
